import Mathlib

/-!
Verification of the image upload / gallery subsystem of the
iguanas-jewelry-admin repository.

The TypeScript source is shallowly embedded as pure state-transformer
functions:

* `ImageGallery.tsx` — the gallery component's handlers
  (`handleSetPrimary`, `handleDelete`, `handleStartReorder`,
  `handleCancelReorder`, `handleSaveReorder`, `moveImage`) become
  functions `GalleryState → GalleryState`.  The React prop/callback loop
  (`images` prop plus `onImagesChange`) is modelled by the `images`
  field of `GalleryState`; `onError` messages accumulate in `errors`,
  and every `apiRequest` invocation is recorded in `requests`.  The
  success or failure of a network round-trip is an explicit `Bool`
  argument (`ok`).

* `ImageUpload` (the environment-switched variant: `uploadFileS3`,
  `uploadFileLocal`, `handleFiles`, `retryUpload`, `removeUpload`,
  `validateFile`) — the upload queue becomes `UploadState`.  Network
  steps append `UploadEvent`s to a `trace`; the server's reaction to
  each step is an oracle `ServerBehavior`.  The `async/await` code
  awaits every step before issuing the next, so the sequential
  state-transformer embedding preserves the order of the events.
  We model the S3 (direct-to-storage) variant `uploadFileS3`; the
  local variant differs only in the negotiation wire format and the
  absence of a transfer timeout, and shares the queueing, confirm-flag
  and error logic verbatim.  Byte-level progress events and the
  3-second success self-dismiss timer are cosmetic and not modelled.

* `AuthContext` (`apiRequest`) — one HTTP exchange becomes a function
  from an `HttpResponse` to an `ApiOutcome` (an `Except` plus a
  logout flag).
-/

/-- `ProductImage` record as declared in `ImageGallery.tsx`. -/
structure ProductImage where
  id : String
  product_id : String
  image_url : String
  is_main : Bool
  display_order : Int
  content_type : Option String
  file_size : Option Nat
  created_at : String
  updated_at : String
deriving DecidableEq, Repr

/-- One `apiRequest` issued by the gallery component, with the request
data the component puts on the wire (the reorder body is the draft's
id sequence). -/
inductive GalleryRequest where
  | promote (imageId : String)
  | delete (imageId : String)
  | reorder (order : List String)
deriving DecidableEq, Repr

/-- State of the `ImageGallery` component: the authoritative `images`
prop (kept in sync through `onImagesChange`), the reorder mode flag and
draft, the surfaced `onError` messages and the issued requests. -/
structure GalleryState where
  productId : String
  images : List ProductImage
  isReordering : Bool
  reorderImages : List ProductImage
  requests : List GalleryRequest
  errors : List String
deriving DecidableEq, Repr

/-- `handleSetPrimary(imageId)`: PUT the promote endpoint, then on
success rewrite `is_main` pointwise (`img.id === imageId`); on failure
surface `'Failed to set primary image'` and leave `images` alone. -/
def handleSetPrimary (ok : Bool) (imageId : String) (s : GalleryState) : GalleryState :=
  let s1 := { s with requests := s.requests ++ [GalleryRequest.promote imageId] }
  if ok then
    { s1 with images := s1.images.map (fun img => { img with is_main := img.id == imageId }) }
  else
    { s1 with errors := s1.errors ++ ["Failed to set primary image"] }

/-- `handleDelete(imageId)`: DELETE the image endpoint, then on success
keep the images whose id differs (`images.filter(img => img.id !== imageId)`);
on failure surface `'Failed to delete image'`.  The transient
`isDeleting` UI flag is not modelled. -/
def handleDelete (ok : Bool) (imageId : String) (s : GalleryState) : GalleryState :=
  let s1 := { s with requests := s.requests ++ [GalleryRequest.delete imageId] }
  if ok then
    { s1 with images := s1.images.filter (fun img => img.id != imageId) }
  else
    { s1 with errors := s1.errors ++ ["Failed to delete image"] }

/-- `handleStartReorder`: snapshot `images` into the draft and switch
to reorder mode. -/
def handleStartReorder (s : GalleryState) : GalleryState :=
  { s with reorderImages := s.images, isReordering := true }

/-- `handleCancelReorder`: discard the draft and exit reorder mode. -/
def handleCancelReorder (s : GalleryState) : GalleryState :=
  { s with reorderImages := [], isReordering := false }

/-- `reorderImages.map((img, index) => ({ ...img, display_order: index + 1 }))`
written as index-carrying recursion: `renumberFrom 0 l` renumbers the
draft densely starting at 1. -/
def renumberFrom : Nat → List ProductImage → List ProductImage
  | _, [] => []
  | n, img :: rest => { img with display_order := Int.ofNat n + 1 } :: renumberFrom (n + 1) rest

/-- `handleSaveReorder`: PUT the draft's id sequence to the reorder
endpoint; on success replace `images` by the renumbered draft and exit
reorder mode; on failure surface `'Failed to reorder images'`, leaving
the mode and the draft as they were. -/
def handleSaveReorder (ok : Bool) (s : GalleryState) : GalleryState :=
  let s1 := { s with requests := s.requests ++
    [GalleryRequest.reorder (s.reorderImages.map (fun img : ProductImage => img.id))] }
  if ok then
    { s1 with images := renumberFrom 0 s1.reorderImages, isReordering := false }
  else
    { s1 with errors := s1.errors ++ ["Failed to reorder images"] }

/-- JavaScript `arr.splice(j, 0, a)`: insert `a` at position `j`,
clamped to the array's end when `j` exceeds the length. -/
def spliceInsert (l : List ProductImage) (j : Nat) (a : ProductImage) : List ProductImage :=
  l.take j ++ a :: l.drop j

/-- `moveImage(fromIndex, toIndex)`: splice the dragged element out of
the draft and re-insert it at the drop index.  The component only calls
this with `fromIndex` in range (both indices come from rendered items);
out-of-range `fromIndex` is mapped to the identity. -/
def moveImage (fromIndex toIndex : Nat) (s : GalleryState) : GalleryState :=
  match s.reorderImages[fromIndex]? with
  | none => s
  | some movedImage =>
      { s with reorderImages := spliceInsert (s.reorderImages.eraseIdx fromIndex) toIndex movedImage }

/-- A browser `File` object; `tag` stands for the object's reference
identity (the code compares files with `===`). -/
structure UFile where
  name : String
  type : String
  size : Nat
  tag : Nat
deriving DecidableEq, Repr

/-- `DEFAULT_ACCEPTED_TYPES` from `ImageUpload`. -/
def DEFAULT_ACCEPTED_TYPES : List String :=
  ["image/jpeg", "image/jpg", "image/png", "image/webp"]

/-- `DEFAULT_MAX_SIZE` from `ImageUpload` (10 MiB). -/
def DEFAULT_MAX_SIZE : Nat := 10 * 1024 * 1024

/-- The `ImageUpload` component's props (with their defaults). -/
structure UploadConfig where
  productId : String
  maxFiles : Nat := 10
  acceptedTypes : List String := DEFAULT_ACCEPTED_TYPES
  maxSizeBytes : Nat := DEFAULT_MAX_SIZE
  currentImageCount : Nat := 0
deriving Repr

/-- `validateFile`: content type must be in the allow-list and the size
must not exceed the maximum.  (The source formats the sizes of the
second message as MB figures with two decimals; here the message keeps
the raw byte counts, which no claim inspects.) -/
def validateFile (cfg : UploadConfig) (file : UFile) : Option String :=
  if !(cfg.acceptedTypes.contains file.type) then
    some ("File type " ++ file.type ++ " is not supported. Allowed types: "
      ++ String.intercalate ", " cfg.acceptedTypes)
  else if cfg.maxSizeBytes < file.size then
    some ("File size " ++ toString file.size ++ " exceeds maximum size of "
      ++ toString cfg.maxSizeBytes)
  else
    none

/-- Status of an `UploadProgress` task. -/
inductive UploadStatus where
  | uploading
  | success
  | error
deriving DecidableEq, Repr

/-- `UploadProgress` record from `ImageUpload`. -/
structure UploadProgress where
  file : UFile
  progress : Nat
  status : UploadStatus
  error : Option String
  imageKey : Option String
deriving DecidableEq, Repr

/-- Network steps and awaited delays, in the order the code issues
them.  `transfer` marks the completion of the awaited byte transfer
(the `uploadPromise` resolving); `confirm` carries the body of the
confirm POST (`imageKey` and the `isMain` flag). -/
inductive UploadEvent where
  | negotiate (file : UFile) (imageType : String)
  | transfer (file : UFile)
  | confirm (file : UFile) (imageKey : String) (isMain : Bool)
  | delayMs (ms : Nat)
deriving DecidableEq, Repr

/-- The record handed to `onUploadComplete` (the persisted image as far
as the client-side protocol determines it). -/
structure ConfirmedImage where
  imageKey : String
  isMain : Bool
deriving DecidableEq, Repr

/-- Oracle for the server side of the three protocol steps.
`negotiate` returns the image key when the presigned-URL response
arrives with both `upload_url` and `key` (`none` covers both a thrown
`apiRequest` and missing fields); `transferOk` covers non-2xx, network
error and timeout alike; `confirmOk` is the confirm POST's fate. -/
structure ServerBehavior where
  negotiate : UFile → Option String
  transferOk : UFile → Bool
  confirmOk : UFile → Bool

/-- State of the `ImageUpload` component: the visible task queue, the
event trace, the `onUploadError` messages and the `onUploadComplete`
records. -/
structure UploadState where
  uploads : List UploadProgress
  trace : List UploadEvent
  errors : List String
  completed : List ConfirmedImage
deriving Repr

/-- The `catch` branch of `uploadFileS3`: mark the file's task as
`error` and surface the message. -/
def setTaskError (file : UFile) (msg : String) (s : UploadState) : UploadState :=
  { s with
    uploads := s.uploads.map (fun u =>
      if u.file == file then { u with status := UploadStatus.error, error := some msg } else u),
    errors := s.errors ++ [msg] }

/-- The `type` query parameter of the negotiation:
`(currentImageCount || 0) === 0 ? 'main' : 'gallery'`. -/
def imageTypeFor (cfg : UploadConfig) : String :=
  if cfg.currentImageCount == 0 then "main" else "gallery"

/-- `uploadFileS3(file)`: validate, push an `uploading` task, then the
three awaited steps — negotiate (GET presigned URL), transfer (PUT the
bytes), confirm (POST `{imageKey, isMain}` with
`isMain: (currentImageCount || 0) === 0`).  Any step's failure lands in
the `catch` branch.  Representative constant strings stand in for the
code's formatted error messages. -/
def uploadFileS3 (cfg : UploadConfig) (srv : ServerBehavior) (file : UFile)
    (s : UploadState) : UploadState :=
  match validateFile cfg file with
  | some msg => { s with errors := s.errors ++ [msg] }
  | none =>
    let s1 : UploadState := { s with uploads := s.uploads ++
      [{ file := file, progress := 0, status := UploadStatus.uploading,
         error := none, imageKey := none }] }
    let s2 : UploadState := { s1 with trace := s1.trace ++
      [UploadEvent.negotiate file (imageTypeFor cfg)] }
    match srv.negotiate file with
    | none => setTaskError file "Failed to get upload URL from server" s2
    | some imageKey =>
      let s3 : UploadState := { s2 with trace := s2.trace ++ [UploadEvent.transfer file] }
      if srv.transferOk file then
        let isMain := cfg.currentImageCount == 0
        let s4 : UploadState := { s3 with trace := s3.trace ++
          [UploadEvent.confirm file imageKey isMain] }
        if srv.confirmOk file then
          let s5 : UploadState := { s4 with uploads := s4.uploads.map (fun u =>
            if u.file == file then
              { u with status := UploadStatus.success, progress := 100, imageKey := some imageKey }
            else u) }
          { s5 with completed := s5.completed ++ [{ imageKey := imageKey, isMain := isMain }] }
        else setTaskError file "Confirm failed" s4
      else setTaskError file "S3 upload failed" s3

/-- The sequential loop of `handleFiles`: for each file in array order,
`await uploadFile(file)` then `await` a 500 ms timeout. -/
def processFiles (cfg : UploadConfig) (srv : ServerBehavior) :
    List UFile → UploadState → UploadState
  | [], s => s
  | f :: rest, s =>
    let s1 := uploadFileS3 cfg srv f s
    let s2 : UploadState := { s1 with trace := s1.trace ++ [UploadEvent.delayMs 500] }
    processFiles cfg srv rest s2

/-- The batch admission error message of `handleFiles`. -/
def maxFilesErrorMsg (cfg : UploadConfig) : String :=
  "Cannot upload more than " ++ toString cfg.maxFiles ++ " images per product"

/-- `handleFiles(files)`: reject the whole batch when
`uploads.length + fileArray.length + (currentImageCount || 0) > maxFiles`,
otherwise upload the files sequentially. -/
def handleFiles (cfg : UploadConfig) (srv : ServerBehavior) (files : List UFile)
    (s : UploadState) : UploadState :=
  if cfg.maxFiles < s.uploads.length + files.length + cfg.currentImageCount then
    { s with errors := s.errors ++ [maxFilesErrorMsg cfg] }
  else
    processFiles cfg srv files s

/-- `removeUpload(file)`: drop the file's task from the visible queue. -/
def removeUpload (file : UFile) (s : UploadState) : UploadState :=
  { s with uploads := s.uploads.filter (fun u => u.file != file) }

/-- `retryUpload(file)`: remove the failed task, then run `uploadFile`
on the same file handle again (restarting at step 1). -/
def retryUpload (cfg : UploadConfig) (srv : ServerBehavior) (file : UFile)
    (s : UploadState) : UploadState :=
  uploadFileS3 cfg srv file (removeUpload file s)

/-- The trace of network events `uploadFileS3` appends for one file
(empty when validation rejects the file before any call). -/
def fileTrace (cfg : UploadConfig) (srv : ServerBehavior) (file : UFile) :
    List UploadEvent :=
  match validateFile cfg file with
  | some _ => []
  | none =>
    match srv.negotiate file with
    | none => [UploadEvent.negotiate file (imageTypeFor cfg)]
    | some imageKey =>
      if srv.transferOk file then
        [UploadEvent.negotiate file (imageTypeFor cfg), UploadEvent.transfer file,
         UploadEvent.confirm file imageKey (cfg.currentImageCount == 0)]
      else
        [UploadEvent.negotiate file (imageTypeFor cfg), UploadEvent.transfer file]

/-- The whole batch's trace: per file, its protocol events followed by
the 500 ms inter-file delay. -/
def batchTrace (cfg : UploadConfig) (srv : ServerBehavior) (files : List UFile) :
    List UploadEvent :=
  (files.map (fun f => fileTrace cfg srv f ++ [UploadEvent.delayMs 500])).flatten

/-- The `isMain` flags of the confirm calls of a trace, in order. -/
def confirmFlags (tr : List UploadEvent) : List Bool :=
  tr.filterMap (fun e => match e with
    | UploadEvent.confirm _ _ m => some m
    | _ => none)

/-- One HTTP exchange as `apiRequest` observes it.  `bodyIsJson` is
whether JSON parsing succeeds on the body text (it governs both
`response.json()` on the success path and the `JSON.parse(errorText)`
attempt on the error path); `bodyJsonMessage` is the truthy `message`
field of that parse, when present.  The parsed value of a body that
does parse is modelled by the body text itself. -/
structure HttpResponse where
  status : Nat
  statusText : String
  contentType : Option String
  body : String
  bodyIsJson : Bool
  bodyJsonMessage : Option String
deriving DecidableEq, Repr

/-- `Response.ok`: the status is in the 2xx range. -/
def responseOk (r : HttpResponse) : Bool :=
  decide (200 ≤ r.status ∧ r.status < 300)

/-- JavaScript `String.prototype.includes`: some suffix of `s` starts
with `pat` (written over the character lists so that it evaluates). -/
def strContains (s pat : String) : Bool :=
  (List.range (s.toList.length + 1)).any
    (fun i => (s.toList.drop i).take pat.toList.length == pat.toList)

/-- `contentType && contentType.includes('application/json')`. -/
def includesJson : Option String → Bool
  | none => false
  | some ct => strContains ct "application/json"

/-- Outcome of `apiRequest`: the resolved value or the thrown message,
plus whether `this.logout()` was triggered. -/
structure ApiOutcome where
  result : Except String String
  loggedOut : Bool
deriving Repr

/-- Whether the promise resolved with a value. -/
def resolved : Except String String → Bool
  | Except.ok _ => true
  | Except.error _ => false

/-- `apiRequest` from `AuthContext`: non-ok responses throw (401 first
logs out); ok responses with a JSON content type return
`await response.json()`, which resolves with the parsed body when the
body parses and rejects otherwise — that rejection is re-thrown by the
outer catch (its engine-dependent SyntaxError message is represented
here by a constant); ok responses without a JSON content type throw
`'Invalid JSON response from server'`. -/
def apiRequest (r : HttpResponse) : ApiOutcome :=
  if !(responseOk r) then
    if r.status == 401 then
      { result := Except.error "Authentication required", loggedOut := true }
    else
      let base := "HTTP " ++ toString r.status ++ ": " ++ r.statusText
      let msg :=
        if r.bodyIsJson then
          match r.bodyJsonMessage with
          | some m => m
          | none => base
        else if r.body == "" then base else r.body
      { result := Except.error msg, loggedOut := false }
  else if includesJson r.contentType then
    if r.bodyIsJson then
      { result := Except.ok r.body, loggedOut := false }
    else
      { result := Except.error "JSON parse error", loggedOut := false }
  else
    { result := Except.error "Invalid JSON response from server", loggedOut := false }

/-! Concrete fixtures used by counterexamples and witnesses. -/

/-- A valid PNG file. -/
def fileA : UFile := { name := "a.png", type := "image/png", size := 1000, tag := 0 }

/-- A second valid PNG file (distinct object). -/
def fileB : UFile := { name := "b.png", type := "image/png", size := 1000, tag := 1 }

/-- A file with a content type outside the allow-list. -/
def fileBad : UFile := { name := "c.gif", type := "image/gif", size := 1000, tag := 2 }

/-- A server on which every protocol step succeeds. -/
def srvAllOk : ServerBehavior :=
  { negotiate := fun f => some ("key-" ++ f.name),
    transferOk := fun _ => true,
    confirmOk := fun _ => true }

/-- Props of an upload session on a product with zero existing images. -/
def cfgFresh : UploadConfig := { productId := "prod-1" }

/-- The initial upload component state. -/
def emptyUploadState : UploadState :=
  { uploads := [], trace := [], errors := [], completed := [] }

/-- C1: the claim says the confirm step's `isMain` flag is true exactly
when the product had zero images before that upload began, so in one
batch only the first confirmed upload may carry `isMain = true`.  The
code computes the flag as `(currentImageCount || 0) === 0` from the
`currentImageCount` captured when the batch started and never refreshes
it between files: on a product with zero images, a batch of two valid
files whose steps all succeed produces TWO confirm calls both carrying
`isMain = true`, although the product already had one image when the
second upload began (both uploads complete: `completed` has length 2). -/
theorem C1_both_confirms_carry_isMain_true :
    confirmFlags (handleFiles cfgFresh srvAllOk [fileA, fileB] emptyUploadState).trace
      = [true, true] ∧
    (handleFiles cfgFresh srvAllOk [fileA, fileB] emptyUploadState).completed
      = [{ imageKey := "key-a.png", isMain := true },
         { imageKey := "key-b.png", isMain := true }] := by
  exact ⟨rfl, rfl⟩

/-- C2: when `(current queue length) + (batch size) + (existing image
count)` exceeds `maxFiles`, `handleFiles` rejects the whole batch with
the single admission error message and admits no file of it: the task
queue, the network trace and the completed list are untouched. -/
theorem C2_overfull_batch_rejected_wholesale (cfg : UploadConfig) (srv : ServerBehavior)
    (files : List UFile) (s : UploadState)
    (h : cfg.maxFiles < s.uploads.length + files.length + cfg.currentImageCount) :
    (handleFiles cfg srv files s).uploads = s.uploads ∧
    (handleFiles cfg srv files s).trace = s.trace ∧
    (handleFiles cfg srv files s).completed = s.completed ∧
    (handleFiles cfg srv files s).errors = s.errors ++ [maxFilesErrorMsg cfg] := by
  unfold handleFiles
  rw [if_pos h]
  exact ⟨rfl, rfl, rfl, rfl⟩

/-- A batch of eleven distinct valid files. -/
def elevenFiles : List UFile :=
  (List.range 11).map (fun i => { name := "f.png", type := "image/png", size := 1, tag := i })

/-- Witness for C2: eleven files on an empty queue exceed the default
limit of ten and the whole batch is rejected. -/
theorem C2_overfull_batch_rejected_wholesale_witness :
    (handleFiles cfgFresh srvAllOk elevenFiles emptyUploadState).uploads
      = emptyUploadState.uploads ∧
    (handleFiles cfgFresh srvAllOk elevenFiles emptyUploadState).trace
      = emptyUploadState.trace ∧
    (handleFiles cfgFresh srvAllOk elevenFiles emptyUploadState).completed
      = emptyUploadState.completed ∧
    (handleFiles cfgFresh srvAllOk elevenFiles emptyUploadState).errors
      = emptyUploadState.errors ++ [maxFilesErrorMsg cfgFresh] :=
  C2_overfull_batch_rejected_wholesale cfgFresh srvAllOk elevenFiles emptyUploadState
    (by decide)

/-- A 200 response whose content type reports JSON but whose body is
not parseable JSON (`response.json()` rejects on it). -/
def unparseableJsonResponse : HttpResponse :=
  { status := 200, statusText := "OK", contentType := some "application/json",
    body := "\x7b", bodyIsJson := false, bodyJsonMessage := none }

/-- C10, counterexample to the claim as stated: the claim says
apiRequest resolves with a value if and only if the HTTP response is
2xx and carries a JSON content-type, but that fails in the if direction — this response
is 2xx and carries a JSON content type, yet `apiRequest` does not
resolve, because `await response.json()` rejects on the unparseable
body and the catch re-throws. -/
theorem C10_unparseable_body_throws_despite_2xx_json :
    200 ≤ unparseableJsonResponse.status ∧
    unparseableJsonResponse.status < 300 ∧
    includesJson unparseableJsonResponse.contentType = true ∧
    resolved (apiRequest unparseableJsonResponse).result = false := by
  exact ⟨by decide, by decide, by rfl, by rfl⟩

/-- C10, amended: `apiRequest` resolves with a value exactly when the
status is 2xx, the content type reports JSON, and the body parses as
JSON; every other outcome (non-2xx, 401, 2xx without a JSON content
type, or a 2xx JSON-typed response whose body fails to parse) is a
thrown error, and the logout side effect fires exactly on a 401
status. -/
theorem C10_resolves_iff_2xx_json_parsable (r : HttpResponse) :
    (resolved (apiRequest r).result = true ↔
      (200 ≤ r.status ∧ r.status < 300 ∧ includesJson r.contentType = true ∧
        r.bodyIsJson = true)) ∧
    ((apiRequest r).loggedOut = true ↔ r.status = 401) := by
  constructor
  · by_cases hok : 200 ≤ r.status ∧ r.status < 300
    · cases hj : includesJson r.contentType
      · simp [apiRequest, responseOk, hok, hj, resolved]
      · cases hb : r.bodyIsJson <;>
          simp [apiRequest, responseOk, hok, hj, hb, resolved]
    · have hok2 : responseOk r = false := by
        simp [responseOk]
        omega
      cases h4 : r.status == 401 <;>
        simp [apiRequest, hok2, h4, resolved, hok] <;> omega
  · by_cases h4 : r.status = 401
    · simp [apiRequest, responseOk, resolved, h4]
    · by_cases hok : 200 ≤ r.status ∧ r.status < 300
      · cases hj : includesJson r.contentType
        · simp [apiRequest, responseOk, hok, hj, h4]
        · cases hb : r.bodyIsJson <;>
            simp [apiRequest, responseOk, hok, hj, hb, h4]
      · have hok2 : responseOk r = false := by
          simp [responseOk]
          omega
        have h4b : (r.status == 401) = false := by
          simp [h4]
        simp [apiRequest, hok2, h4b, h4]

/-- Inserting with JavaScript splice semantics permutes: the result is
the element consed onto the old list, up to permutation. -/
theorem spliceInsert_perm (l : List ProductImage) (j : Nat) (a : ProductImage) :
    (spliceInsert l j a).Perm (a :: l) := by
  unfold spliceInsert
  have h1 : (l.take j ++ a :: l.drop j).Perm (a :: (l.take j ++ l.drop j)) := List.perm_middle
  rwa [List.take_append_drop] at h1

/-- Consing the removed element back onto `eraseIdx` permutes to the
original list. -/
theorem cons_eraseIdx_perm (l : List ProductImage) (i : Nat) (x : ProductImage)
    (h : l[i]? = some x) : (x :: l.eraseIdx i).Perm l := by
  rcases List.getElem?_eq_some_iff.mp h with ⟨hi, hx⟩
  rw [List.eraseIdx_eq_take_drop_succ]
  have h1 : (l.take i ++ x :: l.drop (i + 1)).Perm (x :: (l.take i ++ l.drop (i + 1))) :=
    List.perm_middle
  have h2 : l.take i ++ x :: l.drop (i + 1) = l := by
    rw [← hx, List.getElem_cons_drop, List.take_append_drop]
  rw [h2] at h1
  exact h1.symm

/-- C8: while reordering, `moveImage` touches only the draft — the
authoritative `images`, the request log, the error log and the mode
flag are all unchanged, and the new draft is a permutation of the old
one (a splice-out followed by a splice-in); `handleCancelReorder`
discards the draft and exits reorder mode while leaving the
authoritative sequence (hence every `display_order` value in it), the
request log and the error log untouched. -/
theorem C8_move_draft_only_and_cancel_frame (s : GalleryState) (fromIndex toIndex : Nat) :
    ((moveImage fromIndex toIndex s).images = s.images ∧
     (moveImage fromIndex toIndex s).requests = s.requests ∧
     (moveImage fromIndex toIndex s).errors = s.errors ∧
     (moveImage fromIndex toIndex s).isReordering = s.isReordering ∧
     (moveImage fromIndex toIndex s).reorderImages.Perm s.reorderImages) ∧
    ((handleCancelReorder s).images = s.images ∧
     (handleCancelReorder s).requests = s.requests ∧
     (handleCancelReorder s).errors = s.errors ∧
     (handleCancelReorder s).isReordering = false ∧
     (handleCancelReorder s).reorderImages = []) := by
  constructor
  · unfold moveImage
    cases h : s.reorderImages[fromIndex]? with
    | none => exact ⟨rfl, rfl, rfl, rfl, List.Perm.refl _⟩
    | some x =>
      refine ⟨rfl, rfl, rfl, rfl, ?_⟩
      exact ((spliceInsert_perm _ toIndex x).trans (cons_eraseIdx_perm _ fromIndex x h))
  · exact ⟨rfl, rfl, rfl, rfl, rfl⟩

/-- Renumbering keeps the id sequence. -/
theorem renumberFrom_map_id (n : Nat) (l : List ProductImage) :
    (renumberFrom n l).map (fun img => img.id) = l.map (fun img => img.id) := by
  induction l generalizing n with
  | nil => rfl
  | cons a t ih => simp [renumberFrom, ih]

/-- Renumbering writes the dense positions `n+1, n+2, ...` into
`display_order`. -/
theorem renumberFrom_map_display (n : Nat) (l : List ProductImage) :
    (renumberFrom n l).map (fun img => img.display_order)
      = (List.range' (n + 1) l.length).map Int.ofNat := by
  induction l generalizing n with
  | nil => rfl
  | cons a t ih =>
    simp only [renumberFrom, List.map_cons, List.length_cons, List.range'_succ, ih]
    congr 1

/-- Renumbering changes nothing but `display_order`. -/
theorem renumberFrom_strip (n : Nat) (l : List ProductImage) :
    (renumberFrom n l).map (fun img => { img with display_order := 0 })
      = l.map (fun img => { img with display_order := 0 }) := by
  induction l generalizing n with
  | nil => rfl
  | cons a t ih => simp [renumberFrom, ih]

/-- C4: committing an active reorder draft — on success the reorder
request carries the draft's id sequence, the authoritative sequence is
replaced by the draft in its current order (same ids, same record
contents apart from `display_order`), `display_order` is renumbered
densely as `1..N` by position, and reorder mode is exited; on failure
the gallery stays in reorder mode with the draft and the authoritative
sequence intact and an error is surfaced. -/
theorem C4_reorder_commit_and_failure (s : GalleryState) (h : s.isReordering = true) :
    ((handleSaveReorder true s).isReordering = false ∧
     (handleSaveReorder true s).requests = s.requests ++
       [GalleryRequest.reorder (s.reorderImages.map (fun img : ProductImage => img.id))] ∧
     (handleSaveReorder true s).images.map (fun img => img.id)
       = s.reorderImages.map (fun img => img.id) ∧
     (handleSaveReorder true s).images.map (fun img => img.display_order)
       = (List.range' 1 s.reorderImages.length).map Int.ofNat ∧
     (handleSaveReorder true s).images.map (fun img => { img with display_order := 0 })
       = s.reorderImages.map (fun img => { img with display_order := 0 })) ∧
    ((handleSaveReorder false s).isReordering = true ∧
     (handleSaveReorder false s).reorderImages = s.reorderImages ∧
     (handleSaveReorder false s).images = s.images ∧
     (handleSaveReorder false s).errors = s.errors ++ ["Failed to reorder images"]) := by
  constructor
  · refine ⟨rfl, rfl, ?_, ?_, ?_⟩
    · exact renumberFrom_map_id 0 s.reorderImages
    · exact renumberFrom_map_display 0 s.reorderImages
    · exact renumberFrom_strip 0 s.reorderImages
  · exact ⟨h, rfl, rfl, rfl⟩

/-- A concrete gallery image. -/
def mkImg (id : String) (main : Bool) (ord : Int) : ProductImage :=
  { id := id, product_id := "prod-1", image_url := "http://img/" ++ id,
    is_main := main, display_order := ord, content_type := some "image/png",
    file_size := some 1000, created_at := "t0", updated_at := "t0" }

/-- A four-image gallery. -/
def galleryW : GalleryState :=
  { productId := "prod-1",
    images := [mkImg "i1" true 1, mkImg "i2" false 2, mkImg "i3" false 3, mkImg "i4" false 4],
    isReordering := false, reorderImages := [], requests := [], errors := [] }

/-- The spec's reorder scenario: enter reorder mode on the four-image
gallery, then drag item 0 to index 2. -/
def movedDraftState : GalleryState := moveImage 0 2 (handleStartReorder galleryW)

/-- Witness for C4: committing the dragged draft of the four-image
gallery renumbers `display_order` to 1,2,3,4 in the new position order
and exits reorder mode. -/
theorem C4_reorder_commit_and_failure_witness :
    ((handleSaveReorder true movedDraftState).isReordering = false ∧
     (handleSaveReorder true movedDraftState).requests = movedDraftState.requests ++
       [GalleryRequest.reorder (movedDraftState.reorderImages.map (fun img : ProductImage => img.id))] ∧
     (handleSaveReorder true movedDraftState).images.map (fun img => img.id)
       = movedDraftState.reorderImages.map (fun img => img.id) ∧
     (handleSaveReorder true movedDraftState).images.map (fun img => img.display_order)
       = (List.range' 1 movedDraftState.reorderImages.length).map Int.ofNat ∧
     (handleSaveReorder true movedDraftState).images.map (fun img => { img with display_order := 0 })
       = movedDraftState.reorderImages.map (fun img => { img with display_order := 0 })) ∧
    ((handleSaveReorder false movedDraftState).isReordering = true ∧
     (handleSaveReorder false movedDraftState).reorderImages = movedDraftState.reorderImages ∧
     (handleSaveReorder false movedDraftState).images = movedDraftState.images ∧
     (handleSaveReorder false movedDraftState).errors
       = movedDraftState.errors ++ ["Failed to reorder images"]) :=
  C4_reorder_commit_and_failure movedDraftState (by rfl)

/-- In a duplicate-free list a present element is counted exactly
once. -/
theorem countP_beq_eq_one_of_nodup {l : List String} {a : String}
    (nd : l.Nodup) (h : a ∈ l) : l.countP (fun x => x == a) = 1 := by
  induction l with
  | nil => cases h
  | cons b t ih =>
    rcases List.nodup_cons.mp nd with ⟨hbt, hnt⟩
    rcases List.mem_cons.mp h with h1 | h2
    · rw [List.countP_cons_of_pos _ _ (by simp [h1])]
      have h0 : t.countP (fun x => x == a) = 0 := by
        apply List.countP_eq_zero.mpr
        intro x hx
        simp only [beq_iff_eq]
        intro hxa
        exact hbt ((hxa.trans h1) ▸ hx)
      omega
    · have hba : b ≠ a := by
        intro hba
        exact hbt (hba ▸ h2)
      rw [List.countP_cons_of_neg _ _ (by simp [hba])]
      exact ih hnt h2

/-- C5: promoting image `target` in a gallery whose ids are distinct
and contain `target` — the promote request is issued; on success the id
sequence is unchanged, every image's `is_main` equals whether its id is
the target, and exactly one image carries `is_main = true`; on failure
the local sequence is completely unchanged and an error is surfaced. -/
theorem C5_promote_exactly_target_main (s : GalleryState) (target : String)
    (hmem : target ∈ s.images.map (fun img : ProductImage => img.id))
    (hnd : (s.images.map (fun img : ProductImage => img.id)).Nodup) :
    ((handleSetPrimary true target s).requests
       = s.requests ++ [GalleryRequest.promote target] ∧
     (handleSetPrimary true target s).images.map (fun img : ProductImage => img.id)
       = s.images.map (fun img : ProductImage => img.id) ∧
     (∀ img ∈ (handleSetPrimary true target s).images, img.is_main = (img.id == target)) ∧
     (handleSetPrimary true target s).images.countP (fun img => img.is_main) = 1) ∧
    ((handleSetPrimary false target s).images = s.images ∧
     (handleSetPrimary false target s).errors
       = s.errors ++ ["Failed to set primary image"]) := by
  refine ⟨⟨rfl, ?_, ?_, ?_⟩, rfl, rfl⟩
  · simp [handleSetPrimary]
  · intro img himg
    have himg2 : img ∈ s.images.map
        (fun im : ProductImage => { im with is_main := im.id == target }) := himg
    rcases List.mem_map.mp himg2 with ⟨a, ha, rfl⟩
    rfl
  · show (s.images.map (fun img => { img with is_main := img.id == target })).countP
      (fun img => img.is_main) = 1
    rw [List.countP_map]
    have he : ((fun img : ProductImage => img.is_main) ∘
        (fun img : ProductImage => { img with is_main := img.id == target }))
        = fun img : ProductImage => img.id == target := rfl
    rw [he]
    have he2 : (fun img : ProductImage => img.id == target)
        = ((fun x : String => x == target) ∘ (fun img : ProductImage => img.id)) := rfl
    rw [he2, ← List.countP_map]
    exact countP_beq_eq_one_of_nodup hnd hmem

/-- Witness for C5: promoting `i3` in the four-image gallery. -/
theorem C5_promote_exactly_target_main_witness :
    ((handleSetPrimary true "i3" galleryW).requests
       = galleryW.requests ++ [GalleryRequest.promote "i3"] ∧
     (handleSetPrimary true "i3" galleryW).images.map (fun img : ProductImage => img.id)
       = galleryW.images.map (fun img : ProductImage => img.id) ∧
     (∀ img ∈ (handleSetPrimary true "i3" galleryW).images, img.is_main = (img.id == "i3")) ∧
     (handleSetPrimary true "i3" galleryW).images.countP (fun img => img.is_main) = 1) ∧
    ((handleSetPrimary false "i3" galleryW).images = galleryW.images ∧
     (handleSetPrimary false "i3" galleryW).errors
       = galleryW.errors ++ ["Failed to set primary image"]) :=
  C5_promote_exactly_target_main galleryW "i3" (by decide) (by decide)

/-- Deleting by id from a duplicate-free list removes exactly the one
matching entry and keeps the remainder in order. -/
theorem filter_ne_removes_exactly_one (l : List ProductImage) (target : String)
    (hmem : target ∈ l.map (fun img : ProductImage => img.id))
    (hnd : (l.map (fun img : ProductImage => img.id)).Nodup) :
    ∃ l1 x l2, l = l1 ++ x :: l2 ∧ x.id = target ∧
      l.filter (fun img => img.id != target) = l1 ++ l2 := by
  induction l with
  | nil => cases hmem
  | cons a t ih =>
    simp only [List.map_cons, List.nodup_cons] at hnd
    rcases hnd with ⟨hat, hnt⟩
    rw [List.map_cons] at hmem
    rcases List.mem_cons.mp hmem with h1 | h2
    · refine ⟨[], a, t, rfl, h1.symm, ?_⟩
      rw [List.filter_cons_of_neg (by simp [h1])]
      simp only [List.nil_append]
      apply List.filter_eq_self.mpr
      intro b hb
      simp only [bne_iff_ne, ne_eq]
      intro hbt
      exact hat (by rw [← h1, ← hbt]; exact List.mem_map_of_mem _ hb)
    · have hane : a.id ≠ target := by
        intro he
        exact hat (he ▸ h2)
      obtain ⟨l1, x, l2, hsplit, hx, hfil⟩ := ih h2 hnt
      refine ⟨a :: l1, x, l2, by rw [hsplit, List.cons_append], hx, ?_⟩
      rw [List.filter_cons_of_pos (by simp [hane]), hfil]
      rfl

/-- C6: deleting image `target` from a gallery whose ids are distinct
and contain `target` — the delete request is issued; on success exactly
the one entry whose id matches is removed and the relative order of the
remaining entries is unchanged (the sequence splits as
`l1 ++ target-entry :: l2` before and is `l1 ++ l2` after); on failure
the local sequence is unchanged and an error is surfaced. -/
theorem C6_delete_exactly_one_order_kept (s : GalleryState) (target : String)
    (hmem : target ∈ s.images.map (fun img : ProductImage => img.id))
    (hnd : (s.images.map (fun img : ProductImage => img.id)).Nodup) :
    ((handleDelete true target s).requests
       = s.requests ++ [GalleryRequest.delete target] ∧
     ∃ l1 x l2, s.images = l1 ++ x :: l2 ∧ x.id = target ∧
       (handleDelete true target s).images = l1 ++ l2) ∧
    ((handleDelete false target s).images = s.images ∧
     (handleDelete false target s).errors = s.errors ++ ["Failed to delete image"]) := by
  refine ⟨⟨rfl, ?_⟩, rfl, rfl⟩
  obtain ⟨l1, x, l2, hsplit, hx, hfil⟩ := filter_ne_removes_exactly_one s.images target hmem hnd
  exact ⟨l1, x, l2, hsplit, hx, hfil⟩

/-- Witness for C6: deleting `i2` from the four-image gallery. -/
theorem C6_delete_exactly_one_order_kept_witness :
    ((handleDelete true "i2" galleryW).requests
       = galleryW.requests ++ [GalleryRequest.delete "i2"] ∧
     ∃ l1 x l2, galleryW.images = l1 ++ x :: l2 ∧ x.id = "i2" ∧
       (handleDelete true "i2" galleryW).images = l1 ++ l2) ∧
    ((handleDelete false "i2" galleryW).images = galleryW.images ∧
     (handleDelete false "i2" galleryW).errors
       = galleryW.errors ++ ["Failed to delete image"]) :=
  C6_delete_exactly_one_order_kept galleryW "i2" (by decide) (by decide)

/-- `uploadFileS3` only appends to the trace, and what it appends is
`fileTrace`. -/
theorem uploadFileS3_trace (cfg : UploadConfig) (srv : ServerBehavior) (file : UFile)
    (s : UploadState) :
    (uploadFileS3 cfg srv file s).trace = s.trace ++ fileTrace cfg srv file := by
  unfold uploadFileS3 fileTrace
  cases hv : validateFile cfg file with
  | some msg => simp
  | none =>
    cases hn : srv.negotiate file with
    | none => simp [setTaskError]
    | some key =>
      cases ht : srv.transferOk file with
      | false => simp [setTaskError]
      | true =>
        cases hc : srv.confirmOk file with
        | false => simp [setTaskError]
        | true => simp

/-- Updating tasks in place never changes how many tasks belong to a
file, provided the update keeps the `file` field. -/
theorem countP_file_map_update (l : List UploadProgress) (file : UFile)
    (g : UploadProgress → UploadProgress) (hg : ∀ u, (g u).file = u.file) :
    (l.map g).countP (fun u => u.file == file) = l.countP (fun u => u.file == file) := by
  rw [List.countP_map]
  have he : ((fun u : UploadProgress => u.file == file) ∘ g)
      = (fun u : UploadProgress => u.file == file) := by
    funext u
    simp [Function.comp, hg u]
  rw [he]

/-- One `uploadFileS3` call adds at most one task for its file. -/
theorem uploadFileS3_uploads_countP (cfg : UploadConfig) (srv : ServerBehavior)
    (file : UFile) (s : UploadState) :
    (uploadFileS3 cfg srv file s).uploads.countP (fun u => u.file == file)
      ≤ s.uploads.countP (fun u => u.file == file) + 1 := by
  cases hv : validateFile cfg file with
  | some msg =>
    simp only [uploadFileS3, hv]
    omega
  | none =>
    cases hn : srv.negotiate file with
    | none =>
      simp only [uploadFileS3, setTaskError, hv, hn]
      rw [countP_file_map_update _ _ _
        (by intro u; by_cases h : (u.file == file) = true <;> simp [h])]
      rw [List.countP_append]
      simp
    | some key =>
      cases ht : srv.transferOk file with
      | false =>
        simp only [uploadFileS3, setTaskError, hv, hn, ht, Bool.false_eq_true, if_false]
        rw [countP_file_map_update _ _ _
          (by intro u; by_cases h : (u.file == file) = true <;> simp [h])]
        rw [List.countP_append]
        simp
      | true =>
        cases hc : srv.confirmOk file with
        | false =>
          simp only [uploadFileS3, setTaskError, hv, hn, ht, hc, if_true,
            Bool.false_eq_true, if_false]
          rw [countP_file_map_update _ _ _
            (by intro u; by_cases h : (u.file == file) = true <;> simp [h])]
          rw [List.countP_append]
          simp
        | true =>
          simp only [uploadFileS3, setTaskError, hv, hn, ht, hc, if_true]
          rw [countP_file_map_update _ _ _
            (by intro u; by_cases h : (u.file == file) = true <;> simp [h])]
          rw [List.countP_append]
          simp

/-- After `removeUpload` no task for the file remains. -/
theorem countP_file_removeUpload (l : List UploadProgress) (file : UFile) :
    (l.filter (fun u => u.file != file)).countP (fun u => u.file == file) = 0 := by
  apply List.countP_eq_zero.mpr
  intro u hu
  have h2 := (List.mem_filter.mp hu).2
  simp only [bne_iff_ne, ne_eq] at h2
  simp [h2]

/-- C7: `retryUpload` removes the failed task before re-invoking the
transport, so afterwards at most one task for the retried file is live;
and (when the file passes validation) the re-invocation restarts the
protocol at step 1 — the first new trace event is the negotiation for
that same file handle. -/
theorem C7_retry_no_duplicate_task (cfg : UploadConfig) (srv : ServerBehavior)
    (file : UFile) (s : UploadState) :
    (retryUpload cfg srv file s).uploads.countP (fun u => u.file == file) ≤ 1 ∧
    (validateFile cfg file = none →
      ∃ rest, (retryUpload cfg srv file s).trace
        = s.trace ++ UploadEvent.negotiate file (imageTypeFor cfg) :: rest) := by
  constructor
  · have h1 := uploadFileS3_uploads_countP cfg srv file (removeUpload file s)
    have h0 : (removeUpload file s).uploads.countP (fun u => u.file == file) = 0 :=
      countP_file_removeUpload s.uploads file
    unfold retryUpload
    omega
  · intro hv
    have htr := uploadFileS3_trace cfg srv file (removeUpload file s)
    have hft : ∃ rest, fileTrace cfg srv file
        = UploadEvent.negotiate file (imageTypeFor cfg) :: rest := by
      unfold fileTrace
      rw [hv]
      cases hn : srv.negotiate file with
      | none => exact ⟨[], rfl⟩
      | some key =>
        cases ht : srv.transferOk file with
        | false => exact ⟨[UploadEvent.transfer file], by simp⟩
        | true =>
          exact ⟨[UploadEvent.transfer file,
            UploadEvent.confirm file key (cfg.currentImageCount == 0)], by simp⟩
    rcases hft with ⟨rest, hrest⟩
    refine ⟨rest, ?_⟩
    unfold retryUpload
    rw [htr, hrest]
    rfl

/-- A failed upload task for `fileA`. -/
def failedTask : UploadProgress :=
  { file := fileA, progress := 37, status := UploadStatus.error, error := some "S3 upload failed", imageKey := none }

/-- An upload component state holding one failed task for `fileA`. -/
def failedTaskState : UploadState :=
  { uploads := [failedTask], trace := [], errors := [], completed := [] }

/-- Witness for C7: retrying `fileA` from a state holding its failed
task leaves at most one task for `fileA` and restarts at negotiation. -/
theorem C7_retry_no_duplicate_task_witness :
    (retryUpload cfgFresh srvAllOk fileA failedTaskState).uploads.countP
      (fun u => u.file == fileA) ≤ 1 ∧
    (∃ rest, (retryUpload cfgFresh srvAllOk fileA failedTaskState).trace
      = failedTaskState.trace
        ++ UploadEvent.negotiate fileA (imageTypeFor cfgFresh) :: rest) :=
  ⟨(C7_retry_no_duplicate_task cfgFresh srvAllOk fileA failedTaskState).1,
   (C7_retry_no_duplicate_task cfgFresh srvAllOk fileA failedTaskState).2 (by rfl)⟩

/-- C3: a file that fails validation (wrong content type or oversize)
is rejected through the error callback before any network call — the
whole component state is unchanged except for the surfaced message (no
task is created, no trace event is appended) — and inside a batch the
rejection does not block the sibling files: processing `file :: ys`
continues with `ys` exactly as if only the message and the inter-file
delay had been recorded. -/
theorem C3_invalid_file_rejected_before_network (cfg : UploadConfig)
    (srv : ServerBehavior) (file : UFile) (msg : String) (ys : List UFile)
    (s : UploadState) (h : validateFile cfg file = some msg) :
    uploadFileS3 cfg srv file s = { s with errors := s.errors ++ [msg] } ∧
    processFiles cfg srv (file :: ys) s
      = processFiles cfg srv ys
          { s with errors := s.errors ++ [msg],
                   trace := s.trace ++ [UploadEvent.delayMs 500] } := by
  have h1 : ∀ t : UploadState,
      uploadFileS3 cfg srv file t = { t with errors := t.errors ++ [msg] } := by
    intro t
    unfold uploadFileS3
    rw [h]
  refine ⟨h1 s, ?_⟩
  simp only [processFiles]
  rw [h1 s]

/-- The bad file's validation message. -/
def fileBadMsg : String :=
  "File type image/gif is not supported. Allowed types: image/jpeg, image/jpg, image/png, image/webp"

/-- Witness for C3: a GIF file is rejected with no task and no network
event, and its sibling `fileA` is still processed. -/
theorem C3_invalid_file_rejected_before_network_witness :
    uploadFileS3 cfgFresh srvAllOk fileBad emptyUploadState
      = { emptyUploadState with errors := emptyUploadState.errors ++ [fileBadMsg] } ∧
    processFiles cfgFresh srvAllOk (fileBad :: [fileA]) emptyUploadState
      = processFiles cfgFresh srvAllOk [fileA]
          { emptyUploadState with
              errors := emptyUploadState.errors ++ [fileBadMsg],
              trace := emptyUploadState.trace ++ [UploadEvent.delayMs 500] } :=
  C3_invalid_file_rejected_before_network cfgFresh srvAllOk fileBad fileBadMsg
    [fileA] emptyUploadState (by rfl)

/-- The trace of the sequential batch loop is the concatenation of the
per-file traces, each followed by the 500 ms delay. -/
theorem processFiles_trace (cfg : UploadConfig) (srv : ServerBehavior)
    (files : List UFile) : ∀ s : UploadState,
    (processFiles cfg srv files s).trace = s.trace ++ batchTrace cfg srv files := by
  induction files with
  | nil =>
    intro s
    simp [processFiles, batchTrace]
  | cons f rest ih =>
    intro s
    simp only [processFiles]
    rw [ih]
    simp [batchTrace, uploadFileS3_trace, List.append_assoc]

/-- C9: for an admitted batch, `handleFiles` is strictly sequential —
its trace is the files' protocol traces concatenated in array order,
each followed by the fixed 500 ms delay, so no two files' events
interleave; and within one file's protocol the confirm call appears
only after the transfer completion event for that same file. -/
theorem C9_sequential_upload_with_delay (cfg : UploadConfig) (srv : ServerBehavior)
    (files : List UFile) (s : UploadState)
    (hadm : s.uploads.length + files.length + cfg.currentImageCount ≤ cfg.maxFiles) :
    (handleFiles cfg srv files s).trace = s.trace ++ batchTrace cfg srv files ∧
    (∀ (f : UFile) (l1 l2 : List UploadEvent) (key : String) (m : Bool),
      fileTrace cfg srv f = l1 ++ UploadEvent.confirm f key m :: l2 →
      UploadEvent.transfer f ∈ l1) := by
  constructor
  · unfold handleFiles
    rw [if_neg (by omega)]
    exact processFiles_trace cfg srv files s
  · intro f l1 l2 key m hdec
    unfold fileTrace at hdec
    cases hv : validateFile cfg f with
    | some msg =>
      rw [hv] at hdec
      simp at hdec
    | none =>
      rw [hv] at hdec
      cases hn : srv.negotiate f with
      | none =>
        rw [hn] at hdec
        rcases l1 with _ | ⟨a, l1⟩ <;> simp_all
      | some k =>
        rw [hn] at hdec
        cases ht : srv.transferOk f with
        | false =>
          rw [ht] at hdec
          rcases l1 with _ | ⟨a, _ | ⟨b, l1⟩⟩ <;> simp_all
        | true =>
          rw [ht] at hdec
          rcases l1 with _ | ⟨a, _ | ⟨b, _ | ⟨c, l1⟩⟩⟩ <;> simp_all

/-- Witness for C9: the two-file batch on a fresh product is admitted
and sequential. -/
theorem C9_sequential_upload_with_delay_witness :
    (handleFiles cfgFresh srvAllOk [fileA, fileB] emptyUploadState).trace
      = emptyUploadState.trace ++ batchTrace cfgFresh srvAllOk [fileA, fileB] ∧
    (∀ (f : UFile) (l1 l2 : List UploadEvent) (key : String) (m : Bool),
      fileTrace cfgFresh srvAllOk f = l1 ++ UploadEvent.confirm f key m :: l2 →
      UploadEvent.transfer f ∈ l1) :=
  C9_sequential_upload_with_delay cfgFresh srvAllOk [fileA, fileB] emptyUploadState
    (by decide)
